import Mathlib

/-!
Verification development for the insurance-claims audit service
(`main.py`, `cosmos_database.py`, `models/cosmos_models.py`).

Python strings are modelled as `List Char` (so that equality and the
lexicographic order are kernel-decidable), Python dicts with string values
as association lists, the two clock readings (`datetime.utcnow().isoformat()`
and `strftime "%Y%m%d%H%M%S"`) as an explicit `Clock` record, and the
outcomes of calls into the Azure Cosmos SDK as an explicit sum type.
`str.upper()` is modelled per character by `Char.toUpper`.
-/

/-- Python strings, modelled as lists of characters. -/
abbrev Str := List Char

/-- Python dicts with string keys and string values, modelled as
association lists. -/
abbrev Doc := List (Str × Str)

/-- Python dict access `data[k]` and `data.get(k)`: the value paired with
the first occurrence of the key, if any. -/
def dlookup (k : Str) : Doc → Option Str
  | [] => none
  | (k2, v) :: rest => if k = k2 then some v else dlookup k rest

def kId : Str := "id".toList

def kAuditId : Str := "audit_id".toList

def kClaimId : Str := "claim_id".toList

def kCustomerIdCamel : Str := "customerId".toList

def kCustomerName : Str := "customer_name".toList

def kProcessName : Str := "process_name".toList

def kProcessStatus : Str := "process_status".toList

def kProcessDetails : Str := "process_details".toList

def kAgentName : Str := "agent_name".toList

def kTimestamp : Str := "timestamp".toList

def kCreatedAt : Str := "created_at".toList

def kUpdatedAt : Str := "updated_at".toList

def kType : Str := "type".toList

/-- Value of the discriminator field: the constant string `audit_record`. -/
def recordTypeVal : Str := "audit_record".toList

/-- Python `s.split(sep)` for a one-character separator: splits on every
occurrence of the separator; the result is never the empty list. -/
def pySplit (sep : Char) : Str → List Str
  | [] => [[]]
  | a :: as =>
    let r := pySplit sep as
    if a = sep then [] :: r else (a :: r.headD []) :: r.tail

/-- Python `s.upper()`, modelled per character. -/
def pyUpper (s : Str) : Str := s.map Char.toUpper

/-- Source `main.py`, `extract_customer_id_from_claim`: the prefix before
the first underscore if one occurs, else the first six characters
upper-cased if the length is at least six, else `CUST_` prepended. -/
def extract_customer_id_from_claim (claim_id : Str) : Str :=
  if '_' ∈ claim_id then (pySplit '_' claim_id).headD []
  else if 6 ≤ claim_id.length then pyUpper (claim_id.take 6)
  else "CUST_".toList ++ claim_id

/-- The two clock readings taken during construction:
`iso` models `datetime.utcnow().isoformat()` (without the appended `Z`),
`compact` models `datetime.utcnow().strftime` with format YYYYMMDDHHMMSS. -/
structure Clock where
  iso : Str
  compact : Str
deriving DecidableEq

/-- Source `models/cosmos_models.py`, class `CosmosAuditRecord`: the
in-memory audit record with all attributes set by `__init__`. -/
structure CosmosAuditRecord where
  claim_id : Str
  customer_id : Str
  customer_name : Str
  process_name : Str
  process_status : Str
  process_details : Str
  agent_name : Str
  audit_id : Str
  timestamp : Str
  created_at : Str
  updated_at : Str
  id : Str
deriving DecidableEq

/-- Source `_generate_audit_id`: the string `AUD` followed by the compact
clock reading. -/
def generate_audit_id (c : Clock) : Str := "AUD".toList ++ c.compact

/-- Source `CosmosAuditRecord.__init__`. The optional `audit_id` argument
is run through Python `or`, which treats the empty string (and `None`,
modelled as `none`) as falsy and regenerates; the three timestamps are all
set from one clock reading with a trailing `Z`; the document id is the
customer id, an underscore, and the audit id. -/
def CosmosAuditRecord.make (c : Clock) (claim_id customer_id customer_name
    process_name process_status process_details agent_name : Str)
    (audit_id : Option Str) : CosmosAuditRecord :=
  let aid : Str :=
    match audit_id with
    | none => generate_audit_id c
    | some a => if a = [] then generate_audit_id c else a
  let current_time : Str := c.iso ++ [ 'Z' ]
  { claim_id := claim_id, customer_id := customer_id,
    customer_name := customer_name, process_name := process_name,
    process_status := process_status, process_details := process_details,
    agent_name := agent_name, audit_id := aid, timestamp := current_time,
    created_at := current_time, updated_at := current_time,
    id := customer_id ++ [ '_' ] ++ aid }

/-- Source `CosmosAuditRecord.to_dict`: the stored document shape. -/
def CosmosAuditRecord.to_dict (r : CosmosAuditRecord) : Doc :=
  [ (kId, r.id), (kAuditId, r.audit_id), (kClaimId, r.claim_id),
    (kCustomerIdCamel, r.customer_id), (kCustomerName, r.customer_name),
    (kProcessName, r.process_name), (kProcessStatus, r.process_status),
    (kProcessDetails, r.process_details), (kAgentName, r.agent_name),
    (kTimestamp, r.timestamp), (kCreatedAt, r.created_at),
    (kUpdatedAt, r.updated_at), (kType, recordTypeVal) ]

/-- Source `CosmosAuditRecord.from_dict`: mandatory keys are accessed with
`data[k]` (a missing key raises, modelled by `none`), then the timestamps
and the document id are overridden with `data.get(k, default)`. -/
def CosmosAuditRecord.from_dict (c : Clock) (data : Doc) :
    Option CosmosAuditRecord := do
  let claim_id ← dlookup kClaimId data
  let customerId ← dlookup kCustomerIdCamel data
  let customer_name ← dlookup kCustomerName data
  let process_name ← dlookup kProcessName data
  let process_status ← dlookup kProcessStatus data
  let process_details ← dlookup kProcessDetails data
  let agent_name ← dlookup kAgentName data
  let audit_id ← dlookup kAuditId data
  let r := CosmosAuditRecord.make c claim_id customerId customer_name
    process_name process_status process_details agent_name (some audit_id)
  some { r with
    timestamp := (dlookup kTimestamp data).getD r.timestamp,
    created_at := (dlookup kCreatedAt data).getD r.created_at,
    updated_at := (dlookup kUpdatedAt data).getD r.updated_at,
    id := (dlookup kId data).getD r.id }

/-- Source `models/cosmos_models.py`, pydantic model `AuditRecordResponse`:
the wire response projection. -/
structure AuditRecordResponse where
  audit_id : Str
  claim_id : Str
  customer_id : Str
  customer_name : Str
  process_name : Str
  process_status : Str
  process_details : Str
  agent_name : Str
  timestamp : Str
  created_at : Str
  updated_at : Str
deriving DecidableEq

/-- Source `CosmosAuditRecord.to_response_model`. -/
def CosmosAuditRecord.to_response_model (r : CosmosAuditRecord) :
    AuditRecordResponse :=
  { audit_id := r.audit_id, claim_id := r.claim_id,
    customer_id := r.customer_id, customer_name := r.customer_name,
    process_name := r.process_name, process_status := r.process_status,
    process_details := r.process_details, agent_name := r.agent_name,
    timestamp := r.timestamp, created_at := r.created_at,
    updated_at := r.updated_at }

/-- Source `models/cosmos_models.py`, pydantic model `AuditRecordRequest`. -/
structure AuditRecordRequest where
  claim_id : Str
  customer_name : Str
  process_name : Str
  process_status : Str
  process_details : Str
  agent_name : Str
deriving DecidableEq

/-- Model of FastAPI `HTTPException` with a status code and a detail
message. -/
structure HTTPException where
  status_code : Nat
  detail : Str
deriving DecidableEq

/-- Outcome of one call into the Cosmos SDK: success, a
`CosmosHttpResponseError` carrying a status code and a message, or any
other Python exception carrying its string. -/
inductive StorageOutcome (α : Type) where
  | ok (val : α)
  | cosmosError (status_code : Nat) (message : Str)
  | otherError (message : Str)
deriving DecidableEq

/-- Result body of a successful `POST /audit`. -/
structure CreateAuditResult where
  message : Str
  record : AuditRecordResponse
deriving DecidableEq

/-- Source `main.py`, `create_audit_record`: derive the customer id,
construct the record, store it; a `CosmosHttpResponseError` with status 409
becomes HTTP 409 with a fixed detail, any other one becomes HTTP 500 with
the underlying message, any other exception becomes HTTP 500 with its
string. The outcome of the one `container.create_item` call is a
parameter. -/
def create_audit_record (c : Clock) (record : AuditRecordRequest)
    (createOutcome : StorageOutcome Unit) :
    Except HTTPException CreateAuditResult :=
  let customer_id := extract_customer_id_from_claim record.claim_id
  let cosmos_record := CosmosAuditRecord.make c record.claim_id customer_id
    record.customer_name record.process_name record.process_status
    record.process_details record.agent_name none
  match createOutcome with
  | .ok _ =>
      .ok { message := "Audit record created successfully".toList,
            record := cosmos_record.to_response_model }
  | .cosmosError code msg =>
      if code = 409 then
        .error { status_code := 409,
                 detail := "Audit record already exists".toList }
      else
        .error { status_code := 500,
                 detail := "Database error: ".toList ++ msg }
  | .otherError msg =>
      .error { status_code := 500,
               detail := "Failed to create audit record: ".toList ++ msg }

/-- One parametrised query against the container, as handed to
`container.query_items`. -/
structure CosmosQuery where
  query : Str
  parameters : List (Str × Str)
  partition_key : Str
  enable_cross_partition_query : Bool
deriving DecidableEq

/-- The SQL text built in `get_audit_records_by_customer`. -/
def auditQuerySQL : Str :=
  "SELECT * FROM c WHERE c.customerId = @customer_id AND c.type = @type ORDER BY c.timestamp ASC".toList

def pCustomerId : Str := "@customer_id".toList

def pType : Str := "@type".toList

/-- The query `get_audit_records_by_customer` issues for a customer id:
the SQL text above, the two named parameters, the customer id as partition
key, and cross-partition querying disabled. -/
def audit_query (customer_id : Str) : CosmosQuery :=
  { query := auditQuerySQL,
    parameters := [ (pCustomerId, customer_id), (pType, recordTypeVal) ],
    partition_key := customer_id,
    enable_cross_partition_query := false }

/-- Source `main.py`, `get_audit_records_by_customer`: issue the audit
query; on an empty result raise HTTP 404; otherwise deserialize each item
in order (a failing mandatory key access raises a `KeyError`, caught by the
generic handler as HTTP 500) and return the response projections. The
query collaborator is a parameter. -/
def get_audit_records_by_customer (c : Clock) (customer_id : Str)
    (query_items : CosmosQuery → StorageOutcome (List Doc)) :
    Except HTTPException (List AuditRecordResponse) :=
  match query_items (audit_query customer_id) with
  | .cosmosError _ msg =>
      .error { status_code := 500,
               detail := "Database error: ".toList ++ msg }
  | .otherError msg =>
      .error { status_code := 500,
               detail := "Failed to retrieve audit records: ".toList ++ msg }
  | .ok items =>
      if items = [] then
        .error { status_code := 404,
                 detail := "No audit records found for customer: ".toList
                   ++ customer_id }
      else
        match items.mapM (CosmosAuditRecord.from_dict c) with
        | some recs => .ok (recs.map CosmosAuditRecord.to_response_model)
        | none =>
            .error { status_code := 500,
                     detail := "Failed to retrieve audit records: ".toList
                       ++ "KeyError".toList }

/-- Timestamp key of a stored document, for the storage collaborator's
ORDER BY comparison; ISO-8601 UTC strings compare lexicographically. -/
def tsKey (d : Doc) : Str := (dlookup kTimestamp d).getD []

/-- Comparison by timestamp, ascending. -/
def tsLe (d1 d2 : Doc) : Prop := tsKey d1 ≤ tsKey d2

instance : DecidableRel tsLe :=
  fun d1 d2 => inferInstanceAs (Decidable (tsKey d1 ≤ tsKey d2))

instance : IsTotal Doc tsLe := ⟨fun d1 d2 => le_total (tsKey d1) (tsKey d2)⟩

instance : IsTrans Doc tsLe := ⟨fun _ _ _ h1 h2 => le_trans h1 h2⟩

/-- Modelled from the spec: the filter of the audit query — the storage
collaborator returns exactly the documents whose `customerId` equals the
parameter and whose discriminator field equals `audit_record`. -/
def matchesAudit (customer_id : Str) (d : Doc) : Bool :=
  decide (dlookup kCustomerIdCamel d = some customer_id
    ∧ dlookup kType d = some recordTypeVal)

/-- Modelled from the spec: the storage collaborator's evaluation of the
audit query over the partition's stored documents — the matching documents
ordered by `timestamp` ascending. -/
def evalAuditQuery (store : List Doc) (customer_id : Str) : List Doc :=
  List.insertionSort tsLe (store.filter (matchesAudit customer_id))

/-- Result dict of `check_cosmos_connection`: `status` is always present;
`database_name` is present exactly on the connected branch (its value may
itself be absent from the read properties); `error` is present exactly on
the disconnected branch. -/
structure ConnStatus where
  status : Str
  database_name : Option Str
  error : Option Str
deriving DecidableEq

/-- Outcome of `client.database.read()` inside the probe, including any
exception raised while obtaining the client. -/
inductive DbReadOutcome where
  | ok (props : Doc)
  | err (msg : Str)
deriving DecidableEq

/-- Source `cosmos_database.py`, `check_cosmos_connection`: every
exception is caught and turned into a disconnected status with the
exception string; on success the status is connected with the database
name read from the properties. -/
def check_cosmos_connection (o : DbReadOutcome) : ConnStatus :=
  match o with
  | .ok props =>
      { status := "connected".toList, database_name := dlookup kId props,
        error := none }
  | .err msg =>
      { status := "disconnected".toList, database_name := none,
        error := some msg }

/-- Response body of `GET /health`; `none` models an absent key. -/
structure HealthResponse where
  status : Str
  timestamp : Str
  database : Str
  database_name : Option Str
  environment : Option Str
  error : Option Str
deriving DecidableEq

/-- Source `main.py`, `health_check`: the probe outcome is a parameter, an
`Except` so that a fault raised by the probe call itself (the `except`
branch of the handler) is representable. The handler itself never raises:
both branches return a `HealthResponse`, always stamped with a fresh UTC
timestamp. -/
def health_check (c : Clock) (env : Str) (probe : Except Str ConnStatus) :
    HealthResponse :=
  match probe with
  | .ok cosmos_status =>
      { status := if cosmos_status.status = "connected".toList
          then "healthy".toList else "unhealthy".toList,
        timestamp := c.iso ++ [ 'Z' ],
        database := cosmos_status.status,
        database_name := cosmos_status.database_name,
        environment := some env,
        error := none }
  | .error msg =>
      { status := "unhealthy".toList,
        timestamp := c.iso ++ [ 'Z' ],
        database := "error".toList,
        database_name := none,
        environment := none,
        error := some msg }

/-! Sample values used by the witness theorems. -/

def sampleClock : Clock :=
  { iso := "2024-01-01T00:00:00".toList, compact := "20240101000000".toList }

def sampleRecord : CosmosAuditRecord :=
  CosmosAuditRecord.make sampleClock "CL_001".toList "CL".toList
    "Jane Doe".toList "claim_review".toList "completed".toList
    "reviewed".toList "agent1".toList none

def sampleRequest : AuditRecordRequest :=
  { claim_id := "CL_001".toList, customer_name := "Jane Doe".toList,
    process_name := "claim_review".toList,
    process_status := "completed".toList, process_details := "ok".toList,
    agent_name := "agent1".toList }

/-- The field name the spec's data-model table uses for the
discriminator. -/
def kRecordTypeSnake : Str := "record_type".toList

/-- A stored document carrying an empty `audit_id`. -/
def emptyAuditDoc : Doc :=
  [ (kClaimId, "CL_001".toList), (kCustomerIdCamel, "CL".toList),
    (kCustomerName, "Jane Doe".toList), (kProcessName, "claim_review".toList),
    (kProcessStatus, "completed".toList), (kProcessDetails, "ok".toList),
    (kAgentName, "agent1".toList), (kAuditId, []),
    (kTimestamp, "2023-12-31T00:00:00Z".toList),
    (kCreatedAt, "2023-12-31T00:00:00Z".toList),
    (kUpdatedAt, "2023-12-31T00:00:00Z".toList), (kId, "CL_".toList) ]

/-- What deserializing `emptyAuditDoc` at `sampleClock` produces: every
stored field survives except the empty audit id, which is regenerated. -/
def emptyAuditRec : CosmosAuditRecord :=
  { claim_id := "CL_001".toList, customer_id := "CL".toList,
    customer_name := "Jane Doe".toList, process_name := "claim_review".toList,
    process_status := "completed".toList, process_details := "ok".toList,
    agent_name := "agent1".toList,
    audit_id := "AUD20240101000000".toList,
    timestamp := "2023-12-31T00:00:00Z".toList,
    created_at := "2023-12-31T00:00:00Z".toList,
    updated_at := "2023-12-31T00:00:00Z".toList, id := "CL_".toList }

def clockEarly : Clock :=
  { iso := "2024-01-01T00:00:01".toList, compact := "20240101000001".toList }

def clockLate : Clock :=
  { iso := "2024-01-02T00:00:00".toList, compact := "20240102000000".toList }

def recEarly : CosmosAuditRecord :=
  CosmosAuditRecord.make clockEarly "CL_001".toList "CL".toList
    "Jane Doe".toList "intake".toList "completed".toList "ok".toList
    "agent1".toList none

def recLate : CosmosAuditRecord :=
  CosmosAuditRecord.make clockLate "CL_002".toList "CL".toList
    "Jane Doe".toList "review".toList "pending".toList "ok".toList
    "agent2".toList none

def recOther : CosmosAuditRecord :=
  CosmosAuditRecord.make clockEarly "ZZ_001".toList "ZZ".toList
    "Sam Roe".toList "intake".toList "completed".toList "ok".toList
    "agent1".toList none

/-- A concrete partition content, deliberately out of timestamp order. -/
def sampleStore : List Doc :=
  [ recLate.to_dict, recOther.to_dict, recEarly.to_dict ]

/-! Helper lemmas. -/

theorem pySplit_headD (sep : Char) (s : Str) :
    (pySplit sep s).headD [] = s.takeWhile (fun ch => ch != sep) := by
  induction s with
  | nil => rfl
  | cons a as ih =>
    by_cases h : a = sep
    · simp [pySplit, List.takeWhile, h]
    · have hb : (a != sep) = true := by simp [h]
      simp only [pySplit, List.takeWhile, hb, if_neg h, List.headD_cons]
      rw [ih]

theorem from_dict_to_dict (c2 : Clock) (r : CosmosAuditRecord) :
    CosmosAuditRecord.from_dict c2 r.to_dict =
      some { r with audit_id :=
        if r.audit_id = [] then generate_audit_id c2 else r.audit_id } := rfl

theorem from_dict_inv (c : Clock) (data : Doc) (r : CosmosAuditRecord)
    (h : CosmosAuditRecord.from_dict c data = some r) :
    ∃ v1 v2 v3 v4 v5 v6 v7 aid,
      dlookup kClaimId data = some v1 ∧
      dlookup kCustomerIdCamel data = some v2 ∧
      dlookup kAuditId data = some aid ∧
      r = (let r0 := CosmosAuditRecord.make c v1 v2 v3 v4 v5 v6 v7 (some aid)
        { r0 with
          timestamp := (dlookup kTimestamp data).getD r0.timestamp,
          created_at := (dlookup kCreatedAt data).getD r0.created_at,
          updated_at := (dlookup kUpdatedAt data).getD r0.updated_at,
          id := (dlookup kId data).getD r0.id }) := by
  simp only [CosmosAuditRecord.from_dict, bind, Option.bind_eq_some] at h
  obtain ⟨v1, h1, v2, h2, v3, h3, v4, h4, v5, h5, v6, h6, v7, h7, aid, h8, h9⟩ := h
  exact ⟨v1, v2, v3, v4, v5, v6, v7, aid, h1, h2, h8,
    by injection h9 with h9; exact h9.symm⟩

theorem make_audit_id_eq (c : Clock) (a b d e f g h : Str) (aid : Option Str) :
    (CosmosAuditRecord.make c a b d e f g h aid).audit_id =
      match aid with
      | none => generate_audit_id c
      | some x => if x = [] then generate_audit_id c else x := rfl

theorem generate_audit_id_ne_nil (c : Clock) : generate_audit_id c ≠ [] := by
  simp [generate_audit_id]

theorem make_audit_id_ne_nil (c : Clock) (a b d e f g h : Str)
    (aid : Option Str) :
    (CosmosAuditRecord.make c a b d e f g h aid).audit_id ≠ [] := by
  rw [make_audit_id_eq]
  cases aid with
  | none => exact generate_audit_id_ne_nil c
  | some x =>
    by_cases hx : x = []
    · simpa [hx] using generate_audit_id_ne_nil c
    · simp [hx]

theorem from_dict_audit_id_ne_nil (c : Clock) (data : Doc)
    (r : CosmosAuditRecord) (h : CosmosAuditRecord.from_dict c data = some r) :
    r.audit_id ≠ [] := by
  obtain ⟨v1, v2, v3, v4, v5, v6, v7, aid, -, -, -, hr⟩ := from_dict_inv c data r h
  rw [hr]
  exact make_audit_id_ne_nil c v1 v2 v3 v4 v5 v6 v7 (some aid)

/-! Claims. -/

/-- C1: the customer-id derivation returns the prefix before the first
underscore when one occurs; else the first six characters upper-cased when
the length is at least six; else `CUST_` prepended to the whole claim id.
Totality and determinism hold because it is a plain Lean function on all
of `Str`, the empty string included. -/
theorem C1_extract_customer_id (s : Str) :
    ( '_' ∈ s →
      extract_customer_id_from_claim s = s.takeWhile (fun ch => ch != '_') )
    ∧ ( '_' ∉ s → 6 ≤ s.length →
      extract_customer_id_from_claim s = (s.take 6).map Char.toUpper )
    ∧ ( '_' ∉ s → s.length < 6 →
      extract_customer_id_from_claim s = "CUST_".toList ++ s ) := by
  refine ⟨fun h => ?_, fun h h6 => ?_, fun h h6 => ?_⟩
  · rw [extract_customer_id_from_claim, if_pos h, pySplit_headD]
  · rw [extract_customer_id_from_claim, if_neg h, if_pos h6]; rfl
  · rw [extract_customer_id_from_claim, if_neg h, if_neg (by omega)]

/-- Witness for C1 at the three example inputs of the spec. -/
theorem C1_witness :
    extract_customer_id_from_claim "ABC123_XYZ".toList =
      "ABC123_XYZ".toList.takeWhile (fun ch => ch != '_')
    ∧ extract_customer_id_from_claim "cl4567890".toList =
      ("cl4567890".toList.take 6).map Char.toUpper
    ∧ extract_customer_id_from_claim "A1".toList = "CUST_".toList ++ "A1".toList :=
  ⟨ (C1_extract_customer_id "ABC123_XYZ".toList).1 (by decide),
    (C1_extract_customer_id "cl4567890".toList).2.1 (by decide) (by decide),
    (C1_extract_customer_id "A1".toList).2.2 (by decide) (by decide) ⟩

/-- C2: every reachable audit record — every record built by the
constructor or produced by deserialization — has a nonempty audit id, and
every record with a nonempty audit id round-trips through the storage
shape: deserializing its serialized document restores every field. -/
theorem C2_roundtrip :
    (∀ (c : Clock) (a b d e f g h : Str) (aid : Option Str),
      (CosmosAuditRecord.make c a b d e f g h aid).audit_id ≠ [])
    ∧ (∀ (c : Clock) (data : Doc) (r : CosmosAuditRecord),
      CosmosAuditRecord.from_dict c data = some r → r.audit_id ≠ [])
    ∧ (∀ (c2 : Clock) (r : CosmosAuditRecord), r.audit_id ≠ [] →
      CosmosAuditRecord.from_dict c2 r.to_dict = some r) := by
  refine ⟨make_audit_id_ne_nil, from_dict_audit_id_ne_nil, fun c2 r h => ?_⟩
  rw [from_dict_to_dict, if_neg h]

/-- Witness for C2: the sample record has a nonempty audit id and
round-trips. -/
theorem C2_witness :
    sampleRecord.audit_id ≠ []
    ∧ CosmosAuditRecord.from_dict sampleClock sampleRecord.to_dict =
      some sampleRecord :=
  ⟨ C2_roundtrip.2.1 sampleClock sampleRecord.to_dict sampleRecord (by decide),
    C2_roundtrip.2.2 sampleClock sampleRecord (by decide) ⟩

/-- C3 as written is false: `to_dict` stores the discriminator under the
field name `type`, not `record_type` — at the sample record, looking up
`record_type` in the serialized document finds nothing, while `type` holds
`audit_record`. -/
theorem C3_counterexample :
    dlookup kRecordTypeSnake sampleRecord.to_dict = none
    ∧ dlookup kType sampleRecord.to_dict = some recordTypeVal := by decide

/-- C3 amended: field names map 1:1 except `customer_id` stored as
`customerId` and `document_id` stored as `id`; the discriminator, with
constant value `audit_record`, is stored under the field name `type`, not
`record_type`. -/
theorem C3_field_names (r : CosmosAuditRecord) :
    r.to_dict.map Prod.fst =
      [ kId, kAuditId, kClaimId, kCustomerIdCamel, kCustomerName,
        kProcessName, kProcessStatus, kProcessDetails, kAgentName,
        kTimestamp, kCreatedAt, kUpdatedAt, kType ]
    ∧ dlookup kId r.to_dict = some r.id
    ∧ dlookup kAuditId r.to_dict = some r.audit_id
    ∧ dlookup kClaimId r.to_dict = some r.claim_id
    ∧ dlookup kCustomerIdCamel r.to_dict = some r.customer_id
    ∧ dlookup "customer_id".toList r.to_dict = none
    ∧ dlookup "document_id".toList r.to_dict = none
    ∧ dlookup kCustomerName r.to_dict = some r.customer_name
    ∧ dlookup kProcessName r.to_dict = some r.process_name
    ∧ dlookup kProcessStatus r.to_dict = some r.process_status
    ∧ dlookup kProcessDetails r.to_dict = some r.process_details
    ∧ dlookup kAgentName r.to_dict = some r.agent_name
    ∧ dlookup kTimestamp r.to_dict = some r.timestamp
    ∧ dlookup kCreatedAt r.to_dict = some r.created_at
    ∧ dlookup kUpdatedAt r.to_dict = some r.updated_at
    ∧ dlookup kType r.to_dict = some recordTypeVal
    ∧ dlookup kRecordTypeSnake r.to_dict = none :=
  ⟨rfl, rfl, rfl, rfl, rfl, rfl, rfl, rfl, rfl, rfl, rfl, rfl, rfl, rfl,
    rfl, rfl, rfl⟩

/-- C4: the document id of every constructed record is exactly the
customer id, an underscore, and the audit id; hence two constructions that
end up with the same customer id and the same audit id have the same
document id. -/
theorem C4_document_id :
    (∀ (c : Clock) (a b d e f g h : Str) (aid : Option Str),
      (CosmosAuditRecord.make c a b d e f g h aid).id =
        (CosmosAuditRecord.make c a b d e f g h aid).customer_id ++ [ '_' ]
          ++ (CosmosAuditRecord.make c a b d e f g h aid).audit_id)
    ∧ (∀ (c1 c2 : Clock) (a1 b1 d1 e1 f1 g1 h1 a2 b2 d2 e2 f2 g2 h2 : Str)
        (aid1 aid2 : Option Str),
      (CosmosAuditRecord.make c1 a1 b1 d1 e1 f1 g1 h1 aid1).customer_id =
        (CosmosAuditRecord.make c2 a2 b2 d2 e2 f2 g2 h2 aid2).customer_id →
      (CosmosAuditRecord.make c1 a1 b1 d1 e1 f1 g1 h1 aid1).audit_id =
        (CosmosAuditRecord.make c2 a2 b2 d2 e2 f2 g2 h2 aid2).audit_id →
      (CosmosAuditRecord.make c1 a1 b1 d1 e1 f1 g1 h1 aid1).id =
        (CosmosAuditRecord.make c2 a2 b2 d2 e2 f2 g2 h2 aid2).id) := by
  refine ⟨fun c a b d e f g h aid => rfl, ?_⟩
  intro c1 c2 a1 b1 d1 e1 f1 g1 h1 a2 b2 d2 e2 f2 g2 h2 aid1 aid2 hcust haud
  show (CosmosAuditRecord.make c1 a1 b1 d1 e1 f1 g1 h1 aid1).customer_id
    ++ [ '_' ] ++ (CosmosAuditRecord.make c1 a1 b1 d1 e1 f1 g1 h1 aid1).audit_id
    = (CosmosAuditRecord.make c2 a2 b2 d2 e2 f2 g2 h2 aid2).customer_id
    ++ [ '_' ] ++ (CosmosAuditRecord.make c2 a2 b2 d2 e2 f2 g2 h2 aid2).audit_id
  rw [hcust, haud]

/-- Witness for C4 at two concrete constructions sharing customer id and
audit id. -/
theorem C4_witness :
    (CosmosAuditRecord.make sampleClock "X_1".toList "X".toList "n".toList
      "p".toList "s".toList "d".toList "a".toList (some "AUD1".toList)).id =
    (CosmosAuditRecord.make sampleClock "X_2".toList "X".toList "m".toList
      "q".toList "t".toList "e".toList "b".toList (some "AUD1".toList)).id :=
  C4_document_id.2 sampleClock sampleClock "X_1".toList "X".toList "n".toList
    "p".toList "s".toList "d".toList "a".toList "X_2".toList "X".toList
    "m".toList "q".toList "t".toList "e".toList "b".toList
    (some "AUD1".toList) (some "AUD1".toList) (by decide) (by decide)

/-- C5: a 409 conflict from the store becomes HTTP 409 with the fixed
"already exists" detail; any other Cosmos error becomes HTTP 500 carrying
the underlying message; any other exception becomes HTTP 500 carrying its
string; and an error response has status 409 exactly when the store
reported a 409 conflict, so the two failure kinds are always
distinguished. -/
theorem C5_create_errors (c : Clock) (req : AuditRecordRequest) (code : Nat)
    (msg : Str) :
    (create_audit_record c req (.cosmosError 409 msg) =
      .error { status_code := 409,
               detail := "Audit record already exists".toList })
    ∧ (code ≠ 409 → create_audit_record c req (.cosmosError code msg) =
      .error { status_code := 500,
               detail := "Database error: ".toList ++ msg })
    ∧ (create_audit_record c req (.otherError msg) =
      .error { status_code := 500,
               detail := "Failed to create audit record: ".toList ++ msg })
    ∧ (∀ (o : StorageOutcome Unit) (e : HTTPException),
        create_audit_record c req o = .error e →
        (e.status_code = 409 ∨ e.status_code = 500)
        ∧ (e.status_code = 409 → ∃ m, o = .cosmosError 409 m)) := by
  refine ⟨rfl, fun h => ?_, rfl, fun o e he => ?_⟩
  · simp [create_audit_record, h]
  · cases o with
    | ok v => simp [create_audit_record] at he
    | cosmosError code2 msg2 =>
      by_cases h2 : code2 = 409
      · subst h2
        simp only [create_audit_record, if_pos rfl] at he
        injection he with he
        subst he
        exact ⟨Or.inl rfl, fun _ => ⟨msg2, rfl⟩⟩
      · simp only [create_audit_record, if_neg h2] at he
        injection he with he
        subst he
        exact ⟨Or.inr rfl, fun h409 => by simp at h409⟩
    | otherError msg2 =>
      simp only [create_audit_record] at he
      injection he with he
      subst he
      exact ⟨Or.inr rfl, fun h409 => by simp at h409⟩

/-- Witness for C5 at a concrete request: a non-conflict store fault maps
to HTTP 500 with the underlying message, and the 409 response is traced
back to a 409 conflict. -/
theorem C5_witness :
    (create_audit_record sampleClock sampleRequest
      (.cosmosError 503 "throttled".toList) =
      .error { status_code := 500,
               detail := "Database error: ".toList ++ "throttled".toList })
    ∧ (∃ m, (StorageOutcome.cosmosError 409 "dup".toList :
        StorageOutcome Unit) = .cosmosError 409 m) :=
  ⟨ (C5_create_errors sampleClock sampleRequest 503 "throttled".toList).2.1
      (by decide),
    ((C5_create_errors sampleClock sampleRequest 409 "dup".toList).2.2.2
      (.cosmosError 409 "dup".toList)
      { status_code := 409, detail := "Audit record already exists".toList }
      rfl).2 rfl ⟩

/-- C6: a query returning zero documents yields HTTP 404 with the
not-found detail rather than an empty-list success; a query returning at
least one document, all of whose items deserialize, yields the list of
response projections. -/
theorem C6_empty_not_found (c : Clock) (cid : Str)
    (query_items : CosmosQuery → StorageOutcome (List Doc)) :
    (query_items (audit_query cid) = .ok [] →
      get_audit_records_by_customer c cid query_items =
        .error { status_code := 404,
                 detail := "No audit records found for customer: ".toList
                   ++ cid })
    ∧ (∀ (items : List Doc) (recs : List CosmosAuditRecord),
        query_items (audit_query cid) = .ok items → items ≠ [] →
        items.mapM (CosmosAuditRecord.from_dict c) = some recs →
        get_audit_records_by_customer c cid query_items =
          .ok (recs.map CosmosAuditRecord.to_response_model)) := by
  constructor
  · intro h
    rw [get_audit_records_by_customer, h]
    rfl
  · intro items recs h hne hm
    rw [get_audit_records_by_customer, h]
    simp only [if_neg hne, hm]

/-- Witness for C6: a concrete empty query result yields 404, and a
concrete one-document result yields the projection. -/
theorem C6_witness :
    get_audit_records_by_customer sampleClock "CL".toList (fun _ => .ok []) =
      .error { status_code := 404,
               detail := "No audit records found for customer: ".toList
                 ++ "CL".toList }
    ∧ get_audit_records_by_customer sampleClock "CL".toList
        (fun _ => .ok [ sampleRecord.to_dict ]) =
      .ok [ sampleRecord.to_response_model ] :=
  ⟨ (C6_empty_not_found sampleClock "CL".toList (fun _ => .ok [])).1 rfl,
    (C6_empty_not_found sampleClock "CL".toList
        (fun _ => .ok [ sampleRecord.to_dict ])).2 [ sampleRecord.to_dict ]
      [ sampleRecord ] rfl (by decide) (by decide) ⟩

/-- C7: the retrieval operation issues exactly the parametrised
single-partition query with cross-partition querying disabled; against the
spec-modelled storage semantics, the returned documents are exactly those
matching the customer id and the `audit_record` discriminator, in
ascending timestamp order whatever the stored order, and the operation
returns their response projections in that order. -/
theorem C7_query_contract (c : Clock) (cid : Str) (store : List Doc) :
    (audit_query cid).query = auditQuerySQL
    ∧ (audit_query cid).parameters = [ (pCustomerId, cid), (pType, recordTypeVal) ]
    ∧ (audit_query cid).partition_key = cid
    ∧ (audit_query cid).enable_cross_partition_query = false
    ∧ List.Sorted tsLe (evalAuditQuery store cid)
    ∧ (evalAuditQuery store cid).Perm (store.filter (matchesAudit cid))
    ∧ (∀ d, d ∈ evalAuditQuery store cid ↔
        d ∈ store ∧ matchesAudit cid d = true)
    ∧ (∀ recs : List CosmosAuditRecord, evalAuditQuery store cid ≠ [] →
        (evalAuditQuery store cid).mapM (CosmosAuditRecord.from_dict c) =
          some recs →
        get_audit_records_by_customer c cid
          (fun _ => .ok (evalAuditQuery store cid)) =
          .ok (recs.map CosmosAuditRecord.to_response_model)) := by
  refine ⟨rfl, rfl, rfl, rfl, ?_, ?_, ?_, ?_⟩
  · exact List.sorted_insertionSort tsLe _
  · exact List.perm_insertionSort tsLe _
  · intro d
    rw [evalAuditQuery, (List.perm_insertionSort tsLe _).mem_iff,
      List.mem_filter]
  · intro recs hne hm
    rw [get_audit_records_by_customer]
    simp only [if_neg hne, hm]

/-- Witness for C7: over the out-of-order sample store, retrieval returns
the two matching records sorted by timestamp, the other customer's record
excluded. -/
theorem C7_witness :
    get_audit_records_by_customer sampleClock "CL".toList
      (fun _ => .ok (evalAuditQuery sampleStore "CL".toList)) =
    .ok ([ recEarly, recLate ].map CosmosAuditRecord.to_response_model) :=
  (C7_query_contract sampleClock "CL".toList sampleStore).2.2.2.2.2.2.2
    [ recEarly, recLate ] (by decide) (by decide)

/-- C8: the health handler is a total function (it never throws); its
response always carries the fresh UTC timestamp; its status is `healthy`
exactly when the probe returned a status of `connected`; a fault raised by
the probe is reported inline as an unhealthy status with the fault
message; and the probe reports `connected` exactly when the database read
succeeded, every probe fault being swallowed into a disconnected status. -/
theorem C8_health (c : Clock) (env : Str) (probe : Except Str ConnStatus) :
    (health_check c env probe).timestamp = c.iso ++ [ 'Z' ]
    ∧ ((health_check c env probe).status = "healthy".toList ↔
        ∃ s, probe = .ok s ∧ s.status = "connected".toList)
    ∧ (∀ msg, probe = .error msg →
        (health_check c env probe).status = "unhealthy".toList
        ∧ (health_check c env probe).error = some msg)
    ∧ (∀ ro, (health_check c env (.ok (check_cosmos_connection ro))).status =
        "healthy".toList ↔ ∃ props, ro = DbReadOutcome.ok props) := by
  refine ⟨?_, ?_, ?_, ?_⟩
  · cases probe <;> rfl
  · cases probe with
    | error msg =>
      constructor
      · intro h
        simp [health_check] at h
      · rintro ⟨s, hs, -⟩
        exact absurd hs (by simp)
    | ok s =>
      by_cases hs : s.status = "connected".toList
      · simp [health_check, hs]
      · constructor
        · intro h
          rw [health_check] at h
          simp only [if_neg hs] at h
          exact absurd h (by decide)
        · rintro ⟨s2, hs2, h2⟩
          injection hs2 with hs2
          subst hs2
          exact absurd h2 hs
  · rintro msg rfl
    exact ⟨rfl, rfl⟩
  · intro ro
    cases ro with
    | ok props =>
      simp [health_check, check_cosmos_connection]
    | err msg =>
      constructor
      · intro h
        have hst : (health_check c env
            (.ok (check_cosmos_connection (.err msg)))).status =
            "unhealthy".toList := rfl
        rw [hst] at h
        exact absurd h (by decide)
      · rintro ⟨props, hp⟩
        exact absurd hp (by simp)

/-- Witness for C8 at a raised probe fault and at a successful database
read. -/
theorem C8_witness :
    (health_check sampleClock "production".toList
        (.error "timeout".toList)).status = "unhealthy".toList
    ∧ (health_check sampleClock "production".toList
        (.error "timeout".toList)).error = some "timeout".toList
    ∧ ((health_check sampleClock "production".toList
        (.ok (check_cosmos_connection (.ok [ (kId, "auditdb".toList) ])))).status
        = "healthy".toList) :=
  ⟨ ((C8_health sampleClock "production".toList
      (.error "timeout".toList)).2.2.1 "timeout".toList rfl).1,
    ((C8_health sampleClock "production".toList
      (.error "timeout".toList)).2.2.1 "timeout".toList rfl).2,
    ((C8_health sampleClock "production".toList
      (.ok (check_cosmos_connection (.ok [ (kId, "auditdb".toList) ])))).2.2.2
      (.ok [ (kId, "auditdb".toList) ])).mpr ⟨[ (kId, "auditdb".toList) ], rfl⟩ ⟩

/-- C9: immediately after construction the three timestamps are equal to
one another, all set from the same creation-instant clock reading. -/
theorem C9_timestamps (c : Clock) (a b d e f g h : Str) (aid : Option Str) :
    (CosmosAuditRecord.make c a b d e f g h aid).timestamp =
      (CosmosAuditRecord.make c a b d e f g h aid).created_at
    ∧ (CosmosAuditRecord.make c a b d e f g h aid).created_at =
      (CosmosAuditRecord.make c a b d e f g h aid).updated_at :=
  ⟨rfl, rfl⟩

/-- C10: the constructor treats an empty audit id as absent and
regenerates, so a stored document carrying an empty audit id is not
reproduced by deserialization — the reconstructed record's audit id is the
freshly generated `AUD` identifier, which is never empty and differs from
the stored empty value. -/
theorem C10_empty_audit_id_regenerated :
    (∀ (c : Clock) (a b d e f g h : Str),
      (CosmosAuditRecord.make c a b d e f g h (some [])).audit_id =
        "AUD".toList ++ c.compact)
    ∧ (∀ (c : Clock) (data : Doc) (r : CosmosAuditRecord),
        dlookup kAuditId data = some [] →
        CosmosAuditRecord.from_dict c data = some r →
        r.audit_id = "AUD".toList ++ c.compact
        ∧ r.audit_id ≠ []
        ∧ r.audit_id ≠ (dlookup kAuditId data).getD []) := by
  constructor
  · intro c a b d e f g h
    rfl
  · intro c data r ha h
    obtain ⟨v1, v2, v3, v4, v5, v6, v7, aid, -, -, haid, hr⟩ :=
      from_dict_inv c data r h
    rw [ha] at haid
    injection haid with haid
    subst haid
    have hgen : r.audit_id = "AUD".toList ++ c.compact := by
      rw [hr]
      rfl
    refine ⟨hgen, ?_, ?_⟩
    · rw [hgen]; simp
    · rw [hgen, ha]; simp

/-- Witness for C10 at a concrete stored document with an empty audit
id. -/
theorem C10_witness :
    (CosmosAuditRecord.from_dict sampleClock emptyAuditDoc =
      some emptyAuditRec)
    ∧ emptyAuditRec.audit_id = "AUD".toList ++ sampleClock.compact :=
  ⟨ by decide,
    ((C10_empty_audit_id_regenerated.2 sampleClock emptyAuditDoc
      emptyAuditRec (by decide) (by decide))).1 ⟩
